import Mathlib

/-!
Verification development for the teleagriculture kit-measurement pipeline.

The Python sources `api_call.py` and `utils.py` both implement the
measurement fetch-and-normalize pipeline (sensor discovery, cursor
pagination, record normalization, tabular post-processing; `api_call.py`
additionally has an on-disk cache fallback and a CLI).  This file gives a
shallow embedding of both implementations and proves or refutes the frozen
claims about them.

Modelling conventions:
- JSON values are the inductive `Json`; a Python `None` and a JSON `null`
  are both `Json.null` (Python's `json` module decodes `null` to `None`,
  and `dict.get` of an absent key yields `None`).
- Python truthiness is `Json.truthy`; `a or b` is `pyOr`.
- HTTP traffic is abstracted as an `UpstreamResponse` per request:
  a transport exception, or a status code with an optional parsed body
  (`none` = unparseable JSON; `requests` raises `JSONDecodeError`, which
  subclasses `RequestException`).
- Code that can raise an uncaught Python exception (an `AttributeError`
  from calling `.get` on a non-dict, a `TypeError` from iterating a
  non-iterable) returns `Except Unit _`, with `Except.error ()` standing
  for the raised exception.
- `pandas` timestamp parsing (`to_datetime(errors="coerce", utc=True)`)
  and numeric coercion (`to_numeric(errors="coerce")`) are modelled
  abstractly over `Json`: integers and integer-strings parse, everything
  else coerces to `NaT`/`NaN` (`none`).  The claims under check depend
  only on parse success/failure and ordering, not on calendar arithmetic.
-/

/-- A JSON value, as decoded by Python's `json` module.  Numbers are
modelled as integers; the claims do not involve fractional values. -/
inductive Json where
  | null : Json
  | bool (b : Bool) : Json
  | int (n : Int) : Json
  | str (s : String) : Json
  | arr (elems : List Json) : Json
  | obj (fields : List (String × Json)) : Json

/-- Python truthiness of a decoded JSON value (`bool(x)`). -/
def Json.truthy : Json → Bool
  | Json.null => false
  | Json.bool b => b
  | Json.int n => !(n == 0)
  | Json.str s => !(s == "")
  | Json.arr elems => !elems.isEmpty
  | Json.obj fields => !fields.isEmpty

/-- Whether a value is Python `None` (used for `x is None` checks). -/
def Json.isNull : Json → Bool
  | Json.null => true
  | _ => false

/-- Python's short-circuit `a or b`: the first operand if truthy,
otherwise the second. -/
def pyOr (a b : Json) : Json :=
  if a.truthy then a else b

/-- First entry of an association list (a Python dict) with the given
key, if any. -/
def pyDictFind (fields : List (String × Json)) (k : String) : Option (String × Json) :=
  fields.find? (fun kv => kv.1 == k)

/-- Python `d.get(k)`: the stored value, or `None` when absent. -/
def pyDictGet (fields : List (String × Json)) (k : String) : Json :=
  match pyDictFind fields k with
  | some kv => kv.2
  | none => Json.null

/-- Python `d.get(k, default)`. -/
def pyDictGetD (fields : List (String × Json)) (k : String) (dflt : Json) : Json :=
  match pyDictFind fields k with
  | some kv => kv.2
  | none => dflt

/-- Whether a key is present in a Python dict (`k in d`). -/
def pyDictMem (fields : List (String × Json)) (k : String) : Bool :=
  (pyDictFind fields k).isSome

/-- Python iteration `for x in v` over a truthy value: lists yield their
elements, strings yield their characters, dicts yield their keys, and
numbers or booleans raise a `TypeError` (`Except.error`). -/
def iterElems : Json → Except Unit (List Json)
  | Json.arr elems => Except.ok elems
  | Json.str s => Except.ok (s.toList.map (fun c => Json.str (String.mk [c])))
  | Json.obj fields => Except.ok (fields.map (fun kv => Json.str kv.1))
  | _ => Except.error ()

/-- Python `repr` of a decoded JSON value. -/
def pyRepr : Json → String
  | Json.null => "None"
  | Json.bool true => "True"
  | Json.bool false => "False"
  | Json.int n => Int.repr n
  | Json.str s => "\x27" ++ s ++ "\x27"
  | Json.arr elems =>
      "[" ++ String.intercalate ", " (elems.attach.map (fun e => pyRepr e.1)) ++ "]"
  | Json.obj fields =>
      "\x7b" ++
        String.intercalate ", "
          (fields.attach.map (fun kv => "\x27" ++ kv.1.1 ++ "\x27: " ++ pyRepr kv.1.2)) ++
      "\x7d"
decreasing_by
  all_goals simp_wf
  · have h := List.sizeOf_lt_of_mem e.2
    omega
  · rcases kv with ⟨⟨k, v⟩, hkv⟩
    have h := List.sizeOf_lt_of_mem hkv
    simp at h ⊢
    omega

/-- Python `str` of a decoded JSON value (`astype(str)` applies this to
each cell): a string is itself, anything else renders via `repr`. -/
def pyStr : Json → String
  | Json.str s => s
  | v => pyRepr v

/-- Python `str.strip()` on the character list: leading and trailing
whitespace removed. -/
def stripChars (l : List Char) : List Char :=
  ((l.dropWhile Char.isWhitespace).reverse.dropWhile Char.isWhitespace).reverse

/-- Python `s.strip()`. -/
def pyStrip (s : String) : String := String.mk (stripChars s.data)

/-- Python `s.split(",")`: empty pieces are kept. -/
def splitCommaAux : List Char → List Char → List (List Char)
  | [], acc => [acc.reverse]
  | c :: rest, acc =>
    if c == ',' then acc.reverse :: splitCommaAux rest []
    else splitCommaAux rest (c :: acc)

/-- Python `s.split(",")` on a string. -/
def pySplitComma (s : String) : List String :=
  (splitCommaAux s.data []).map String.mk

/-- Numeric value of a decimal digit character, if it is one. -/
def digitVal? (c : Char) : Option Nat :=
  if 48 ≤ c.toNat && c.toNat ≤ 57 then some (c.toNat - 48) else none

/-- Decimal reading of a non-empty digit list. -/
def digitsToNat : List Char → Option Nat
  | [] => none
  | cs => cs.foldl (fun acc c =>
      match acc, digitVal? c with
      | some n, some d => some (n * 10 + d)
      | _, _ => none) (some 0)

/-- Integer reading of a string: an optional minus sign followed by
decimal digits (the string shapes the parsing abstractions accept). -/
def strToInt? (s : String) : Option Int :=
  match s.data with
  | '-' :: rest => (digitsToNat rest).map (fun n => -(n : Int))
  | cs => (digitsToNat cs).map (fun n => (n : Int))

/-- Abstraction of `pd.to_datetime(x, errors="coerce", utc=True)` applied
to one cell: integers and integer-strings parse to an abstract instant,
everything else coerces to `NaT` (`none`). -/
def parseTimestamp : Json → Option Int
  | Json.int n => some n
  | Json.str s => strToInt? s
  | _ => none

/-- Abstraction of `pd.to_numeric(x, errors="coerce")` applied to one
cell: integers, integer-strings and booleans parse, everything else
coerces to `NaN` (`none`). -/
def parseNumeric : Json → Option Int
  | Json.int n => some n
  | Json.str s => strToInt? s
  | Json.bool b => some (if b then 1 else 0)
  | _ => none

/-- Lexicographic comparison of character lists by code point. -/
def charsLt : List Char → List Char → Bool
  | [], [] => false
  | [], _ :: _ => true
  | _ :: _, [] => false
  | a :: as, b :: bs =>
    if a.toNat < b.toNat then true
    else if b.toNat < a.toNat then false
    else charsLt as bs

/-- Python string ordering (lexicographic by code point), used by the
(sensor, timestamp) sort key. -/
def pyStrLt (a b : String) : Bool := charsLt a.data b.data

/-- Comparison on nullable instants used by the sort key: a real instant
sorts before `NaT`, since `sort_values` places missing keys last
(`na_position="last"`). -/
def optIntLt : Option Int → Option Int → Bool
  | some a, some b => decide (a < b)
  | some _, none => true
  | _, _ => false

/-- Insert into a sorted list, passing over strictly smaller elements
only, so the inserted (earlier) element lands before any element it ties
with: the insertion step of a stable sort. -/
def insertBy (lt : α → α → Bool) (a : α) : List α → List α
  | [] => [a]
  | b :: l => if lt b a then b :: insertBy lt a l else a :: b :: l

/-- Stable insertion sort, modelling `DataFrame.sort_values(kind="stable")`. -/
def stableSortBy (lt : α → α → Bool) : List α → List α
  | [] => []
  | a :: l => insertBy lt a (stableSortBy lt l)

/-! ## Pagination (`_paginate`, identical in `api_call.py` and `utils.py`) -/

/-- One upstream HTTP interaction as seen by `requests.get`: either a
transport exception (`requests.RequestException`), or a response with a
status code and an optional parsed JSON body (`none` = the body failed to
parse; `Response.json` raises a `JSONDecodeError`, caught by the helper). -/
inductive UpstreamResponse where
  | transportError : UpstreamResponse
  | http (status : Nat) (body : Option Json) : UpstreamResponse

/-- `payload.get("data")` filtered to a list: the page an iteration of
`_paginate` yields (`data if isinstance(data, list) else []`). -/
def pageData (payload : List (String × Json)) : List Json :=
  match pyDictGet payload "data" with
  | Json.arr elems => elems
  | _ => []

/-- The loop of `_paginate`.  `resp i` is the upstream response to the
`i`-th request of this endpoint (the query-string assembly — page size and
opaque cursor token — is absorbed into this abstraction, since the cursor
is opaque to the helper).  The fuel argument mirrors `while pages <
max_pages`: request `i` is issued exactly when `i < max_pages`, because
`pages` counts one completed yield per loop iteration and every
non-yielding iteration breaks.  Returns the list of yielded pages and
whether the generator ended by raising: a 200 response whose parseable
body is not a JSON object raises an uncaught `AttributeError` at
`payload.get("data")`, and an object body whose `meta` value is a truthy
non-object raises at `meta.get("next_cursor")` after yielding its page. -/
def paginateGo (resp : Nat → UpstreamResponse) : Nat → Nat → List (List Json) × Bool
  | 0, _ => ([], false)
  | Nat.succ fuel, i =>
    match resp i with
    | UpstreamResponse.transportError => ([], false)
    | UpstreamResponse.http status body =>
      if status == 200 then
        match body with
        | none => ([], false)
        | some (Json.obj payload) =>
          match pyDictGetD payload "meta" (Json.obj []) with
          | Json.obj meta =>
            if (pyDictGet meta "next_cursor").truthy then
              let rest := paginateGo resp fuel (i + 1)
              (pageData payload :: rest.1, rest.2)
            else ([pageData payload], false)
          | _ => ([pageData payload], true)
        | some _ => ([], true)
      else ([], false)

/-- `_paginate(url, page_size=..., max_pages=...)`: the sequence of pages
the generator yields for one endpoint, plus the raised flag. -/
def paginate (resp : Nat → UpstreamResponse) (maxPages : Nat) : List (List Json) × Bool :=
  paginateGo resp maxPages 0

/-- Default `max_pages` bound of `_paginate` and of
`get_kit_measurements_df`. -/
def defaultMaxPages : Nat := 500

/-! ## `get_kit_info` (identical in both files) -/

/-- `get_kit_info(kit_id)` as a function of the single upstream response.
On a 200 with a parseable object body it returns `body.get("data")`; any
transport failure, non-200 status, or unparseable body is caught
(`JSONDecodeError` subclasses `RequestException` in `requests` >= 2.27)
and yields `None`.  A 200 whose parseable body is not an object raises an
uncaught `AttributeError` at `body.get("data")`. -/
def get_kit_info (resp : UpstreamResponse) : Except Unit Json :=
  match resp with
  | UpstreamResponse.transportError => Except.ok Json.null
  | UpstreamResponse.http status body =>
    if status == 200 then
      match body with
      | none => Except.ok Json.null
      | some (Json.obj fields) => Except.ok (pyDictGet fields "data")
      | some _ => Except.error ()
    else Except.ok Json.null

/-! ## `api_call.py`: record normalization -/

/-- Timestamp resolution of `api_call.get_kit_measurements_df`
(lines 161–167): `attrs.get("timestamp") or item.get("timestamp") or
item.get("time") or item.get("created_at") or item.get("datetime")`. -/
def apiTs (attrs fields : List (String × Json)) : Json :=
  pyOr (pyDictGet attrs "timestamp")
    (pyOr (pyDictGet fields "timestamp")
      (pyOr (pyDictGet fields "time")
        (pyOr (pyDictGet fields "created_at") (pyDictGet fields "datetime"))))

/-- Value resolution of `api_call.get_kit_measurements_df`
(lines 168–174): `attrs.get("value") or item.get("value") or
item.get("reading") or item.get("measurement") or item.get("val")`. -/
def apiVal (attrs fields : List (String × Json)) : Json :=
  pyOr (pyDictGet attrs "value")
    (pyOr (pyDictGet fields "value")
      (pyOr (pyDictGet fields "reading")
        (pyOr (pyDictGet fields "measurement") (pyDictGet fields "val"))))

/-- Unit resolution of `api_call.get_kit_measurements_df` (line 175):
`attrs.get("unit") or item.get("unit") or item.get("units")`. -/
def apiUnit (attrs fields : List (String × Json)) : Json :=
  pyOr (pyDictGet attrs "unit")
    (pyOr (pyDictGet fields "unit") (pyDictGet fields "units"))

/-- A raw appended row of `api_call.get_kit_measurements_df` (the dict
built at lines 178–186), before the pandas post-processing. -/
structure RawRow where
  kit_id : Nat
  sensor : Json
  timestamp : Json
  value : Json
  unit : Json

/-- Processing of one raw upstream item (`api_call` lines 156–186): a
non-dict item is skipped; `attrs = item.get("attributes") or {}`, and a
truthy non-dict `attributes` raises an uncaught `AttributeError` at
`attrs.get("timestamp")`; an item whose resolved timestamp or value `is
None` is skipped; otherwise a row is appended. -/
def itemRow (kit : Nat) (sname : Json) (item : Json) : Except Unit (Option RawRow) :=
  match item with
  | Json.obj fields =>
    match pyOr (pyDictGet fields "attributes") (Json.obj []) with
    | Json.obj attrs =>
      if (apiTs attrs fields).isNull || (apiVal attrs fields).isNull then
        Except.ok none
      else
        Except.ok (some ⟨kit, sname, apiTs attrs fields, apiVal attrs fields, apiUnit attrs fields⟩)
    | _ => Except.error ()
  | _ => Except.ok none

/-- Rows contributed by one page of items, in order. -/
def pageRows (kit : Nat) (sname : Json) : List Json → Except Unit (List RawRow)
  | [] => Except.ok []
  | item :: items => do
    let r ← itemRow kit sname item
    let more ← pageRows kit sname items
    match r with
    | none => Except.ok more
    | some row => Except.ok (row :: more)

/-- Rows contributed by a sequence of pages. -/
def pagesRows (kit : Nat) (sname : Json) : List (List Json) → Except Unit (List RawRow)
  | [] => Except.ok []
  | p :: ps => do
    let rs ← pageRows kit sname p
    let more ← pagesRows kit sname ps
    Except.ok (rs ++ more)

/-- Rows for one sensor endpoint: the yielded pages are consumed
incrementally, and a generator that ends by raising propagates its
exception after the yielded pages were processed. -/
def sensorRows (kit : Nat) (sname : Json) (pr : List (List Json) × Bool) :
    Except Unit (List RawRow) := do
  let rs ← pagesRows kit sname pr.1
  if pr.2 then Except.error () else Except.ok rs

/-- The full collection loop of `api_call.get_kit_measurements_df`
(lines 152–186): sensors are queried one at a time; `net s` is the
response sequence of the measurements endpoint for sensor name `s`. -/
def allSensorsRows (kit : Nat) (net : Json → Nat → UpstreamResponse) (maxPages : Nat) :
    List Json → Except Unit (List RawRow)
  | [] => Except.ok []
  | s :: rest => do
    let rs ← sensorRows kit s (paginate (net s) maxPages)
    let more ← allSensorsRows kit net maxPages rest
    Except.ok (rs ++ more)

/-! ## `api_call.py`: sensor discovery (lines 136–150) -/

/-- The first truthy of `s.get("name") or s.get("slug") or s.get("sensor")`
for one sensor descriptor. -/
def sensorName (fields : List (String × Json)) : Json :=
  pyOr (pyDictGet fields "name")
    (pyOr (pyDictGet fields "slug") (pyDictGet fields "sensor"))

/-- Sensor names discovered from kit metadata (`api_call` lines 139–143):
iterate `kit.get("sensors") or []`, keep dict descriptors whose name
chain is truthy. -/
def discoverSensors (kitFields : List (String × Json)) : Except Unit (List Json) :=
  (iterElems (pyOr (pyDictGet kitFields "sensors") (Json.arr []))).map
    (fun elems => elems.filterMap (fun s =>
      match s with
      | Json.obj sf => if (sensorName sf).truthy then some (sensorName sf) else none
      | _ => none))

/-- `KITS_SENSORS` environment override (`api_call` lines 146–148):
strip the variable, split on commas, strip entries, drop empties. -/
def envSensorList (env : Option String) : List String :=
  let envStr := pyStrip (env.getD "")
  if envStr == "" then []
  else ((pySplitComma envStr).map pyStrip).filter (fun s => !(s == ""))

/-- Built-in last-resort sensor list (`api_call` line 150). -/
def defaultSensors : List Json :=
  [Json.str "ftTemp", Json.str "gbHum", Json.str "NH3", Json.str "C3H8", Json.str "CO"]

/-- Sensor-list selection of `api_call.get_kit_measurements_df`
(lines 136–150).  `kitInfo` is the value `get_kit_info(kit_id)` would
return (`Json.null` for Python `None`); it is consulted only when the
trimmed explicit list is empty.  A truthy non-dict metadata value raises
at `kit.get("sensors")`; a truthy non-iterable `sensors` value raises a
`TypeError` in the list comprehension. -/
def selectSensors (sensors : Option (List String)) (kitInfo : Json) (env : Option String) :
    Except Unit (List Json) :=
  let explicit := ((sensors.getD []).filter (fun s => !(s == ""))).map Json.str
  if !explicit.isEmpty then Except.ok explicit else
  match pyOr kitInfo (Json.obj []) with
  | Json.obj kitFields => do
    let discovered ← discoverSensors kitFields
    if !discovered.isEmpty then Except.ok discovered else
    let fromEnv := (envSensorList env).map Json.str
    if !fromEnv.isEmpty then Except.ok fromEnv else
    Except.ok defaultSensors
  | _ => Except.error ()

/-! ## `api_call.py`: pandas post-processing, cache fallback, pipeline -/

/-- A row of the final five-column collection, after the pandas
post-processing: `timestamp` parsed (`none` = `NaT`), `value` coerced
(`none` = `NaN`), `sensor` forced to `str`. -/
structure OutRow where
  kit_id : Json
  sensor : String
  timestamp : Option Int
  value : Option Int
  unit : Json

/-- Sort key of `sort_values(["sensor", "timestamp"], kind="stable")`. -/
def outRowLt (a b : OutRow) : Bool :=
  pyStrLt a.sensor b.sensor ||
    (a.sensor == b.sensor && optIntLt a.timestamp b.timestamp)

/-- Column coercions of `api_call` lines 190–194 applied to one raw row:
`to_datetime` on the timestamp, `to_numeric` on the value, `astype(str)`
on the sensor. -/
def coerceRow (r : RawRow) : OutRow :=
  ⟨Json.int r.kit_id, pyStr r.sensor, parseTimestamp r.timestamp, parseNumeric r.value, r.unit⟩

/-- Post-processing of the live collection (`api_call` lines 188–197):
parse timestamps, drop rows whose timestamp is `NaT`
(`dropna(subset=["timestamp"])`), coerce values, stringify sensors,
stable-sort by (sensor, timestamp).  With `errors="coerce"` these pandas
operations are total, so the enclosing `try/except: pass` never fires. -/
def normalizeLive (rows : List RawRow) : List OutRow :=
  stableSortBy outRowLt ((rows.map coerceRow).filter (fun r => r.timestamp.isSome))

/-- One data row of a cached snapshot file, read back from disk, viewed
through the fixed five-column schema of `load_cached_kit_dataframe`
lines 107–112: a column the file lacks reads as `None` for every row. -/
structure CacheRow where
  kit_id : Json
  sensor : Json
  timestamp : Json
  value : Json
  unit : Json

/-- A file `data/kit_<id>_*.csv|parquet`: the kit id embedded in its
name, its modification time, and its parsed content (`none` = the read
raised, caught at `api_call` lines 99–105). -/
structure CacheFile where
  kitTag : Nat
  mtime : Nat
  content : Option (List CacheRow)

/-- Validation of cached rows (`api_call` lines 113–120), identical to
the live path: parse-and-drop timestamps, coerce values, stringify
sensors, stable-sort. -/
def normalizeCache (rows : List CacheRow) : List OutRow :=
  stableSortBy outRowLt
    (((rows.map (fun r =>
        (⟨r.kit_id, pyStr r.sensor, parseTimestamp r.timestamp, parseNumeric r.value, r.unit⟩ : OutRow)))).filter
      (fun r => r.timestamp.isSome))

/-- Python `max(candidates, key=mtime)`: the first file of maximal
modification time. -/
def pickLatest (f : CacheFile) (rest : List CacheFile) : CacheFile :=
  rest.foldl (fun best c => if best.mtime < c.mtime then c else best) f

/-- `load_cached_kit_dataframe(kit_id)` (lines 84–121).  `dir` is the
data directory: `none` when it does not exist, otherwise its files.  An
absent directory, no matching candidate, or an unreadable latest
candidate each yield the empty five-column collection. -/
def load_cached_kit_dataframe (kit : Nat) (dir : Option (List CacheFile)) : List OutRow :=
  match dir with
  | none => []
  | some files =>
    match files.filter (fun f => f.kitTag == kit) with
    | [] => []
    | f :: rest =>
      match (pickLatest f rest).content with
      | none => []
      | some rows => normalizeCache rows

/-- The live part of `get_kit_measurements_df` (lines 136–197): select
sensors, collect raw rows over all pages of all sensors, and post-process
(the pandas block runs only on a non-empty frame). -/
def liveNormalized (kit : Nat) (sensors : Option (List String)) (kitInfo : Json)
    (env : Option String) (net : Json → Nat → UpstreamResponse) (maxPages : Nat) :
    Except Unit (List OutRow) := do
  let snames ← selectSensors sensors kitInfo env
  let raw ← allSensorsRows kit net maxPages snames
  Except.ok (if raw.isEmpty then [] else normalizeLive raw)

/-- `api_call.get_kit_measurements_df` (lines 124–203): the live fetch,
then — only if the assembled frame is empty — the cache fallback, which
replaces the result wholesale when it is itself non-empty. -/
def get_kit_measurements_df (kit : Nat) (sensors : Option (List String)) (kitInfo : Json)
    (env : Option String) (net : Json → Nat → UpstreamResponse) (maxPages : Nat)
    (dir : Option (List CacheFile)) : Except Unit (List OutRow) := do
  let dfn ← liveNormalized kit sensors kitInfo env net maxPages
  if dfn.isEmpty then
    let cached := load_cached_kit_dataframe kit dir
    if cached.isEmpty then Except.ok dfn else Except.ok cached
  else Except.ok dfn

/-! ## `utils.py`: the second implementation of the pipeline -/

/-- The merged record of `utils.get_kit_measurements_df` lines 117–118:
`rec = item.get("attributes", {})` then `rec.update({k: v for k, v in
item.items() if k != "attributes"})` — a top-level field overwrites an
attributes field of the same name.  For lookups, the top-level entries
shadow the attributes entries. -/
def utilsMerged (attrs fields : List (String × Json)) : List (String × Json) :=
  (fields.filter (fun kv => !(kv.1 == "attributes"))) ++ attrs

/-- Timestamp resolution of `utils.get_kit_measurements_df` (line 120). -/
def utilsTs (merged : List (String × Json)) : Json :=
  pyOr (pyDictGet merged "timestamp")
    (pyOr (pyDictGet merged "time")
      (pyOr (pyDictGet merged "created_at") (pyDictGet merged "datetime")))

/-- Value resolution of `utils.get_kit_measurements_df` (line 121). -/
def utilsVal (merged : List (String × Json)) : Json :=
  pyOr (pyDictGet merged "value")
    (pyOr (pyDictGet merged "reading")
      (pyOr (pyDictGet merged "measurement") (pyDictGet merged "val")))

/-- Unit resolution of `utils.get_kit_measurements_df` (line 122). -/
def utilsUnit (merged : List (String × Json)) : Json :=
  pyOr (pyDictGet merged "unit") (pyDictGet merged "units")

/-- A raw appended row of `utils.get_kit_measurements_df` (lines 123–132);
`raw` is the preserved `_raw` column. -/
structure UtilsRawRow where
  kit_id : Nat
  sensor : Json
  timestamp : Json
  value : Json
  unit : Json
  raw : Json

/-- A row of the `utils` output after its post-processing: only the
timestamp column is coerced; there is no `dropna`, no value coercion and
no sensor stringification in this implementation. -/
structure UtilsOutRow where
  kit_id : Nat
  sensor : Json
  timestamp : Option Int
  value : Json
  unit : Json
  raw : Json

/-- Processing of one raw item in `utils` (lines 112–132): a non-dict
item is skipped; a present non-dict `attributes` value makes
`rec.update` raise (`item.get("attributes", {})` returns the stored
value even when it is `None`); otherwise a row is always appended —
items with unresolvable fields are kept with `None` in those fields. -/
def utilsItemRow (kit : Nat) (sname : Json) (item : Json) : Except Unit (Option UtilsRawRow) :=
  match item with
  | Json.obj fields =>
    match pyDictGetD fields "attributes" (Json.obj []) with
    | Json.obj attrs =>
      let merged := utilsMerged attrs fields
      Except.ok (some ⟨kit, sname, utilsTs merged, utilsVal merged, utilsUnit merged, item⟩)
    | _ => Except.error ()
  | _ => Except.ok none

/-- Rows contributed by one page of items in `utils`. -/
def utilsPageRows (kit : Nat) (sname : Json) : List Json → Except Unit (List UtilsRawRow)
  | [] => Except.ok []
  | item :: items => do
    let r ← utilsItemRow kit sname item
    let more ← utilsPageRows kit sname items
    match r with
    | none => Except.ok more
    | some row => Except.ok (row :: more)

/-- Rows contributed by a sequence of pages in `utils`. -/
def utilsPagesRows (kit : Nat) (sname : Json) : List (List Json) → Except Unit (List UtilsRawRow)
  | [] => Except.ok []
  | p :: ps => do
    let rs ← utilsPageRows kit sname p
    let more ← utilsPagesRows kit sname ps
    Except.ok (rs ++ more)

/-- Rows for one sensor endpoint in `utils` (pagination uses the default
`max_pages` of 500, since `utils` passes none). -/
def utilsSensorRows (kit : Nat) (sname : Json) (net : Json → Nat → UpstreamResponse) :
    Except Unit (List UtilsRawRow) := do
  let pr := paginate (net sname) defaultMaxPages
  let rs ← utilsPagesRows kit sname pr.1
  if pr.2 then Except.error () else Except.ok rs

/-- The collection loop of `utils.get_kit_measurements_df` over all
sensors. -/
def utilsAllSensorsRows (kit : Nat) (net : Json → Nat → UpstreamResponse) :
    List Json → Except Unit (List UtilsRawRow)
  | [] => Except.ok []
  | s :: rest => do
    let rs ← utilsSensorRows kit s net
    let more ← utilsAllSensorsRows kit net rest
    Except.ok (rs ++ more)

/-- Timestamp coercion of `utils` line 137 applied to one row: no row is
dropped and no other column is touched. -/
def utilsCoerce (r : UtilsRawRow) : UtilsOutRow :=
  ⟨r.kit_id, r.sensor, parseTimestamp r.timestamp, r.value, r.unit, r.raw⟩

/-- Sort key of the `utils` sort.  The sensor cells are compared through
their rendered form; Python would raise on a mixed-type sensor column,
which no claim exercises. -/
def utilsRowLt (a b : UtilsOutRow) : Bool :=
  pyStrLt (pyStr a.sensor) (pyStr b.sensor) ||
    (pyStr a.sensor == pyStr b.sensor && optIntLt a.timestamp b.timestamp)

/-- `utils.get_kit_measurements_df` (lines 82–141).  `sensors = None`
triggers discovery: a falsy `get_kit_info` result returns the empty
frame early, and only the `name` descriptor key is consulted; an
explicit iterable is filtered for truthiness.  Appended rows are
post-processed only when non-empty: the timestamp column is coerced
(rows with unparseable timestamps are kept as `NaT`) and the frame is
stable-sorted. -/
def utilsGetKitMeasurementsDf (kit : Nat) (sensors : Option (List String)) (kitInfo : Json)
    (net : Json → Nat → UpstreamResponse) : Except Unit (List UtilsOutRow) := do
  let snames? ←
    match sensors with
    | none =>
      if kitInfo.truthy then
        match kitInfo with
        | Json.obj kitFields =>
          ((iterElems (pyOr (pyDictGet kitFields "sensors") (Json.arr []))).map
            (fun elems => some (elems.filterMap (fun s =>
              match s with
              | Json.obj sf =>
                if (pyDictGet sf "name").truthy then some (pyDictGet sf "name") else none
              | _ => none))))
        | _ => Except.error ()
      else Except.ok none
    | some l => Except.ok (some ((l.filter (fun s => !(s == ""))).map Json.str))
  match snames? with
  | none => Except.ok []
  | some snames => do
    let raw ← utilsAllSensorsRows kit net snames
    Except.ok (if raw.isEmpty then [] else stableSortBy utilsRowLt (raw.map utilsCoerce))

/-! ## `api_call.py`: the CLI `main` (lines 245–287) -/

/-- Output format chosen by `--format`. -/
inductive OutFormat where
  | csv : OutFormat
  | parquet : OutFormat

/-- Outcome of the output write: success, a missing optional engine
(`ImportError`), or any other write failure. -/
inductive WriteOutcome where
  | success : WriteOutcome
  | importError : WriteOutcome
  | otherError : WriteOutcome

/-- The write-and-exit tail of `main` (lines 262–287), reached only when
the fetch at line 254 returned a frame: a function of the frame's size
and the write outcome.  `to_parquet` failures are caught and turn into
`return 1`; a `to_csv` failure is uncaught and propagates
(`Except.error`).  The fetched row count `nrows` plays no role in the
exit path.  `mainRun` composes this tail with the fetch itself. -/
def mainResult (fmt : OutFormat) (w : WriteOutcome) (nrows : Nat) : Except Unit Int :=
  match fmt with
  | OutFormat.csv =>
    match w with
    | WriteOutcome.success => Except.ok 0
    | _ => Except.error ()
  | OutFormat.parquet =>
    match w with
    | WriteOutcome.success => Except.ok 0
    | WriteOutcome.importError => Except.ok 1
    | WriteOutcome.otherError => Except.ok 1

/-- `main` (lines 245–287) end to end: the `get_kit_measurements_df`
call at line 254 runs first and its uncaught exceptions (the raising
paths of the fetch, e.g. a 200 measurements body parsing to a non-object)
propagate out of `main` before any write is attempted; otherwise the
write-and-exit tail runs. -/
def mainRun (kit : Nat) (sensors : Option (List String)) (kitInfo : Json)
    (env : Option String) (net : Json → Nat → UpstreamResponse) (maxPages : Nat)
    (dir : Option (List CacheFile)) (fmt : OutFormat) (w : WriteOutcome) :
    Except Unit Int :=
  match get_kit_measurements_df kit sensors kitInfo env net maxPages dir with
  | Except.error _ => Except.error ()
  | Except.ok rows => mainResult fmt w rows.length

/-- Process exit status of `raise SystemExit(main())`: the returned code,
or 1 when `main` itself raised (Python exits with status 1 on an uncaught
exception). -/
def processExitCode (r : Except Unit Int) : Int :=
  match r with
  | Except.ok n => n
  | Except.error _ => 1


/-! ## Response classifiers and synthetic endpoints used by the theorems -/

/-- A response on which the helper silently stops before yielding:
transport exception, non-200 status, or unparseable body. -/
def SilentStop (r : UpstreamResponse) : Prop :=
  r = UpstreamResponse.transportError ∨
    (∃ s b, r = UpstreamResponse.http s b ∧ s ≠ 200) ∨
    r = UpstreamResponse.http 200 none

/-- A well-formed 200 page whose metadata supplies a truthy next cursor. -/
def CursorPage (r : UpstreamResponse) : Prop :=
  ∃ payload meta, r = UpstreamResponse.http 200 (some (Json.obj payload)) ∧
    pyDictGetD payload "meta" (Json.obj []) = Json.obj meta ∧
    (pyDictGet meta "next_cursor").truthy = true

/-- A synthetic endpoint returning one page `[1]` with empty metadata. -/
def respOnePage : Nat → UpstreamResponse := fun _ =>
  UpstreamResponse.http 200
    (some (Json.obj [("data", Json.arr [Json.int 1]), ("meta", Json.obj [])]))

/-- A synthetic endpoint that always supplies a next cursor. -/
def respAllCursor : Nat → UpstreamResponse := fun _ =>
  UpstreamResponse.http 200
    (some (Json.obj [("data", Json.arr []),
      ("meta", Json.obj [("next_cursor", Json.str "c")])]))

/-- A synthetic endpoint whose every request fails at transport level. -/
def respTransport : Nat → UpstreamResponse := fun _ => UpstreamResponse.transportError

/-- A network on which every measurements request fails at transport
level: the live fetch of every sensor yields nothing. -/
def netDown : Json → Nat → UpstreamResponse := fun _ _ => UpstreamResponse.transportError

/-- A network whose every measurements endpoint serves a single page
holding one item that carries a value but no timestamp field. -/
def netNoTimestamp : Json → Nat → UpstreamResponse := fun _ _ =>
  UpstreamResponse.http 200
    (some (Json.obj [("data", Json.arr [Json.obj [("value", Json.int 5)]])]))

/-- A network whose every measurements endpoint answers 200 with a body
that parses to the JSON array `[]`: `payload.get("data")` then raises an
uncaught `AttributeError` inside `_paginate`. -/
def netBadBody : Json → Nat → UpstreamResponse := fun _ _ =>
  UpstreamResponse.http 200 (some (Json.arr []))

/-- A network whose every measurements endpoint serves one page with a
single well-formed item. -/
def netGood : Json → Nat → UpstreamResponse := fun _ _ =>
  UpstreamResponse.http 200
    (some (Json.obj
      [("data", Json.arr [Json.obj [("timestamp", Json.int 1), ("value", Json.int 2)]])]))

/-- A cached snapshot file for kit 7 whose contents lack the `kit_id`
column (it reads back as `None`) and carry a non-numeric value. -/
def cacheFileNoKitId : CacheFile :=
  ⟨7, 0, some [⟨Json.null, Json.str "s", Json.int 3, Json.null, Json.null⟩]⟩

/-- A well-formed cached snapshot file for kit 7. -/
def cacheFileGood : CacheFile :=
  ⟨7, 5, some [⟨Json.int 7, Json.str "s", Json.int 3, Json.str "x", Json.null⟩]⟩

/-! ## General lemmas -/

theorem mem_insertBy {α : Type} (lt : α → α → Bool) (a x : α) (l : List α) :
    x ∈ insertBy lt a l ↔ x = a ∨ x ∈ l := by
  induction l with
  | nil => simp [insertBy]
  | cons b t ih =>
    simp only [insertBy]
    split
    · simp only [List.mem_cons, ih]
      tauto
    · simp only [List.mem_cons]

theorem mem_stableSortBy {α : Type} (lt : α → α → Bool) (x : α) (l : List α) :
    x ∈ stableSortBy lt l ↔ x ∈ l := by
  induction l with
  | nil => simp [stableSortBy]
  | cons a t ih => simp [stableSortBy, mem_insertBy, ih]

/-! ## Lemmas about `_paginate` -/

theorem paginateGo_succ_transport (resp : Nat → UpstreamResponse) (fuel i : Nat)
    (h : resp i = UpstreamResponse.transportError) :
    paginateGo resp (fuel + 1) i = ([], false) := by
  simp [paginateGo, h]

theorem paginateGo_succ_non200 (resp : Nat → UpstreamResponse) (fuel i s : Nat)
    (b : Option Json) (h : resp i = UpstreamResponse.http s b) (hs : s ≠ 200) :
    paginateGo resp (fuel + 1) i = ([], false) := by
  have hb : (s == 200) = false := by simpa using hs
  simp [paginateGo, h, hb]

theorem paginateGo_succ_unparseable (resp : Nat → UpstreamResponse) (fuel i : Nat)
    (h : resp i = UpstreamResponse.http 200 none) :
    paginateGo resp (fuel + 1) i = ([], false) := by
  simp [paginateGo, h]

theorem paginateGo_succ_cursor (resp : Nat → UpstreamResponse) (fuel i : Nat)
    (payload meta : List (String × Json))
    (h : resp i = UpstreamResponse.http 200 (some (Json.obj payload)))
    (hm : pyDictGetD payload "meta" (Json.obj []) = Json.obj meta)
    (hc : (pyDictGet meta "next_cursor").truthy = true) :
    paginateGo resp (fuel + 1) i =
      (pageData payload :: (paginateGo resp fuel (i + 1)).1, (paginateGo resp fuel (i + 1)).2) := by
  simp [paginateGo, h, hm, hc]

theorem paginateGo_succ_final (resp : Nat → UpstreamResponse) (fuel i : Nat)
    (payload meta : List (String × Json))
    (h : resp i = UpstreamResponse.http 200 (some (Json.obj payload)))
    (hm : pyDictGetD payload "meta" (Json.obj []) = Json.obj meta)
    (hc : (pyDictGet meta "next_cursor").truthy = false) :
    paginateGo resp (fuel + 1) i = ([pageData payload], false) := by
  simp [paginateGo, h, hm, hc]

theorem paginateGo_length_le (resp : Nat → UpstreamResponse) :
    ∀ fuel i, (paginateGo resp fuel i).1.length ≤ fuel := by
  intro fuel
  induction fuel with
  | zero => intro i; simp [paginateGo]
  | succ fuel ih =>
    intro i
    unfold paginateGo
    split
    · simp
    · split
      · split
        · simp
        · split
          · split
            · simpa using ih (i + 1)
            · simp
          · simp
        · simp
      · simp

theorem paginateGo_all_cursor (resp : Nat → UpstreamResponse)
    (h : ∀ k, CursorPage (resp k)) :
    ∀ fuel i, (paginateGo resp fuel i).1.length = fuel ∧ (paginateGo resp fuel i).2 = false := by
  intro fuel
  induction fuel with
  | zero => intro i; simp [paginateGo]
  | succ fuel ih =>
    intro i
    obtain ⟨payload, meta, hr, hm, hc⟩ := h i
    rw [paginateGo_succ_cursor resp fuel i payload meta hr hm hc]
    simpa using ih (i + 1)

theorem paginateGo_stop (resp : Nat → UpstreamResponse) :
    ∀ fuel i j, (∀ k, k < j → CursorPage (resp (i + k))) → SilentStop (resp (i + j)) →
      (paginateGo resp fuel i).1.length = min j fuel ∧ (paginateGo resp fuel i).2 = false := by
  intro fuel
  induction fuel with
  | zero => intro i j _ _; simp [paginateGo]
  | succ fuel ih =>
    intro i j hcur hstop
    cases j with
    | zero =>
      rw [Nat.add_zero] at hstop
      rcases hstop with h | ⟨s, b, h, hs⟩ | h
      · rw [paginateGo_succ_transport resp fuel i h]; simp
      · rw [paginateGo_succ_non200 resp fuel i s b h hs]; simp
      · rw [paginateGo_succ_unparseable resp fuel i h]; simp
    | succ j =>
      have hc0 := hcur 0 (Nat.succ_pos j)
      rw [Nat.add_zero] at hc0
      obtain ⟨payload, meta, hr, hm, hc⟩ := hc0
      rw [paginateGo_succ_cursor resp fuel i payload meta hr hm hc]
      have hcur2 : ∀ k, k < j → CursorPage (resp (i + 1 + k)) := by
        intro k hk
        have h2 := hcur (k + 1) (Nat.succ_lt_succ hk)
        rwa [show i + (k + 1) = i + 1 + k by omega] at h2
      have hstop2 : SilentStop (resp (i + 1 + j)) := by
        rwa [show i + (j + 1) = i + 1 + j by omega] at hstop
      have h3 := ih (i + 1) j hcur2 hstop2
      refine ⟨?_, h3.2⟩
      simp only [List.length_cons, h3.1]
      omega

/-! ## Claim C1 -/

/-- Claim C1: for every sequence of upstream responses, `_paginate`
terminates — it never yields more than `max_pages` pages; a first
response whose metadata carries no (truthy) next cursor yields exactly
that one page and stops; a response stream that always supplies a cursor
stops after exactly `max_pages` pages without raising; and a transport
exception, non-200 status, or unparseable body (reached after any number
of cursor-carrying pages) stops iteration at that point without raising. -/
theorem paginate_termination_spec (resp : Nat → UpstreamResponse) (maxPages : Nat) :
    (paginate resp maxPages).1.length ≤ maxPages ∧
    (∀ payload meta, resp 0 = UpstreamResponse.http 200 (some (Json.obj payload)) →
      pyDictGetD payload "meta" (Json.obj []) = Json.obj meta →
      (pyDictGet meta "next_cursor").truthy = false → 1 ≤ maxPages →
      paginate resp maxPages = ([pageData payload], false)) ∧
    ((∀ k, CursorPage (resp k)) →
      (paginate resp maxPages).1.length = maxPages ∧ (paginate resp maxPages).2 = false) ∧
    (∀ j, (∀ k, k < j → CursorPage (resp k)) → SilentStop (resp j) →
      (paginate resp maxPages).1.length = min j maxPages ∧
        (paginate resp maxPages).2 = false) := by
  refine ⟨paginateGo_length_le resp maxPages 0, ?_, ?_, ?_⟩
  · intro payload meta hr hm hc hmp
    match maxPages, hmp with
    | fuel + 1, _ => exact paginateGo_succ_final resp fuel 0 payload meta hr hm hc
  · intro h
    exact paginateGo_all_cursor resp h maxPages 0
  · intro j hcur hstop
    refine paginateGo_stop resp maxPages 0 j ?_ ?_
    · intro k hk
      simpa using hcur k hk
    · simpa using hstop

theorem paginate_termination_spec_witness :
    paginate respOnePage 500 = ([[Json.int 1]], false) ∧
    (paginate respAllCursor 500).1.length = 500 ∧
    (paginate respAllCursor 500).2 = false ∧
    paginate respTransport 500 = ([], false) := by
  have h1 := (paginate_termination_spec respOnePage 500).2.1
    [("data", Json.arr [Json.int 1]), ("meta", Json.obj [])] [] rfl rfl rfl (by omega)
  have h2 := (paginate_termination_spec respAllCursor 500).2.2.1
    (fun k => ⟨[("data", Json.arr []), ("meta", Json.obj [("next_cursor", Json.str "c")])],
      [("next_cursor", Json.str "c")], rfl, rfl, rfl⟩)
  have h3 := (paginate_termination_spec respTransport 500).2.2.2 0
    (fun k hk => absurd hk (Nat.not_lt_zero k)) (Or.inl rfl)
  refine ⟨h1, h2.1, h2.2, ?_⟩
  have h4 : (paginate respTransport 500).1 = [] := by
    have := h3.1
    simpa [List.length_eq_zero] using this
  rw [Prod.ext_iff]
  exact ⟨h4, h3.2⟩

/-! ## Claim C9 -/

/-- Counterexample to claim C9 as stated: the exit status is not non-zero
*exactly* on write failures.  A fetch that raises — here every
measurements request answers 200 with a JSON-array body, so `_paginate`
raises an uncaught `AttributeError` — propagates out of `main`, and the
process exits 1 although the write (which is never reached) would have
succeeded. -/
theorem cli_exit_code_counterexample :
    mainRun 1 (some ["a"]) Json.null none netBadBody 500 none OutFormat.csv
        WriteOutcome.success = Except.error () ∧
    processExitCode (mainRun 1 (some ["a"]) Json.null none netBadBody 500 none
        OutFormat.csv WriteOutcome.success) = 1 ∧
    ((1 : Int) = 0 → False) := by
  refine ⟨rfl, rfl, ?_⟩
  intro hc
  exact absurd hc (by decide)

/-- Claim C9 amended: on every run where the fetch returns a frame, the
CLI exits non-zero exactly when writing the output file fails (a parquet
failure is caught and returned as 1, a CSV write failure propagates and
the uncaught exception exits non-zero) and exits zero otherwise,
regardless of how many rows were fetched; a fetch that itself raises an
uncaught exception also exits non-zero, with no write failure involved. -/
theorem cli_exit_code_amended (kit : Nat) (sensors : Option (List String))
    (kitInfo : Json) (env : Option String) (net : Json → Nat → UpstreamResponse)
    (maxPages : Nat) (dir : Option (List CacheFile)) (fmt : OutFormat)
    (w : WriteOutcome) :
    (∀ rows, get_kit_measurements_df kit sensors kitInfo env net maxPages dir =
        Except.ok rows →
      mainRun kit sensors kitInfo env net maxPages dir fmt w =
        mainResult fmt w rows.length ∧
      (processExitCode (mainRun kit sensors kitInfo env net maxPages dir fmt w) = 0 ↔
        w = WriteOutcome.success)) ∧
    (∀ n m, mainResult fmt w n = mainResult fmt w m) ∧
    (get_kit_measurements_df kit sensors kitInfo env net maxPages dir =
        Except.error () →
      processExitCode (mainRun kit sensors kitInfo env net maxPages dir fmt w) = 1) := by
  refine ⟨?_, ?_, ?_⟩
  · intro rows h
    have he : mainRun kit sensors kitInfo env net maxPages dir fmt w =
        mainResult fmt w rows.length := by
      simp only [mainRun, h]
    refine ⟨he, ?_⟩
    rw [he]
    cases fmt <;> cases w <;> simp [mainResult, processExitCode]
  · intro n m
    cases fmt <;> cases w <;> simp [mainResult]
  · intro h
    simp only [mainRun, h, processExitCode]

theorem cli_exit_code_amended_witness :
    get_kit_measurements_df 3 (some ["a"]) Json.null none netGood 500 none =
      Except.ok [⟨Json.int 3, "a", some 1, some 2, Json.null⟩] ∧
    (processExitCode (mainRun 3 (some ["a"]) Json.null none netGood 500 none
        OutFormat.parquet WriteOutcome.importError) = 0 ↔
      WriteOutcome.importError = WriteOutcome.success) ∧
    mainResult OutFormat.parquet WriteOutcome.importError 0 =
      mainResult OutFormat.parquet WriteOutcome.importError 9 ∧
    get_kit_measurements_df 1 (some ["a"]) Json.null none netBadBody 500 none =
      Except.error () ∧
    processExitCode (mainRun 1 (some ["a"]) Json.null none netBadBody 500 none
        OutFormat.csv WriteOutcome.success) = 1 := by
  have h1 := (cli_exit_code_amended 3 (some ["a"]) Json.null none netGood 500 none
    OutFormat.parquet WriteOutcome.importError).1
    [⟨Json.int 3, "a", some 1, some 2, Json.null⟩] rfl
  have h2 := (cli_exit_code_amended 3 (some ["a"]) Json.null none netGood 500 none
    OutFormat.parquet WriteOutcome.importError).2.1 0 9
  have h3 := (cli_exit_code_amended 1 (some ["a"]) Json.null none netBadBody 500 none
    OutFormat.csv WriteOutcome.success).2.2 rfl
  exact ⟨rfl, h1.2, h2, rfl, h3⟩

/-! ## Claim C10 -/

/-- Claim C10: the alias chains use Python `or`, so a present value field
holding a falsy value (0, "", False) is treated as missing and resolution
falls through to the next alias; in particular an item whose only value
field holds the measurement 0 resolves its value to `None` and is
discarded, contributing no row. -/
theorem falsy_value_fallthrough_spec (attrs fields : List (String × Json))
    (kv : String × Json) (hfind : pyDictFind fields "value" = some kv)
    (hfalsy : kv.2.truthy = false) :
    apiVal attrs fields =
      pyOr (pyDictGet attrs "value")
        (pyOr (pyDictGet fields "reading")
          (pyOr (pyDictGet fields "measurement") (pyDictGet fields "val"))) ∧
    itemRow 1 (Json.str "s")
      (Json.obj [("timestamp", Json.str "10"), ("value", Json.int 0)]) = Except.ok none ∧
    pageRows 1 (Json.str "s")
      [Json.obj [("timestamp", Json.str "10"), ("value", Json.int 0)]] = Except.ok [] := by
  refine ⟨?_, rfl, rfl⟩
  have hg : pyDictGet fields "value" = kv.2 := by simp [pyDictGet, hfind]
  simp [apiVal, pyOr, hg, hfalsy]

theorem falsy_value_fallthrough_spec_witness :
    pyDictFind [("value", Json.int 0)] "value" = some ("value", Json.int 0) ∧
    (Json.int 0).truthy = false ∧
    apiVal [] [("value", Json.int 0)] =
      pyOr (pyDictGet [] "value")
        (pyOr (pyDictGet [("value", Json.int 0)] "reading")
          (pyOr (pyDictGet [("value", Json.int 0)] "measurement")
            (pyDictGet [("value", Json.int 0)] "val"))) := by
  exact ⟨rfl, rfl,
    (falsy_value_fallthrough_spec [] [("value", Json.int 0)] ("value", Json.int 0) rfl rfl).1⟩

/-! ## Claim C5 -/

/-- Counterexample to claim C5 as stated: `get_kit_info` can raise to its
caller.  An HTTP 200 response whose body parses to the JSON array `[]`
reaches `body.get("data")`, which raises an uncaught `AttributeError`
(only `requests.RequestException` is caught). -/
theorem get_kit_info_counterexample :
    get_kit_info (UpstreamResponse.http 200 (some (Json.arr []))) = Except.error () := rfl

/-- Claim C5 amended: provided every parseable 200 body is a JSON object,
`get_kit_info` never raises — it returns the body's `data` member on a
200 with a parseable body and `None` on any non-200 status, transport
failure, or malformed body. -/
theorem get_kit_info_amended (r : UpstreamResponse)
    (h : ∀ j : Json, r = UpstreamResponse.http 200 (some j) → ∃ f, j = Json.obj f) :
    (∃ f, r = UpstreamResponse.http 200 (some (Json.obj f)) ∧
      get_kit_info r = Except.ok (pyDictGet f "data")) ∨
    get_kit_info r = Except.ok Json.null := by
  cases r with
  | transportError => exact Or.inr rfl
  | http status body =>
    by_cases hs : status = 200
    · subst hs
      cases body with
      | none => exact Or.inr rfl
      | some j =>
        obtain ⟨f, hf⟩ := h j rfl
        subst hf
        exact Or.inl ⟨f, rfl, rfl⟩
    · right
      have hb : (status == 200) = false := by simpa using hs
      simp [get_kit_info, hb]

theorem get_kit_info_amended_witness :
    (∀ j : Json,
      UpstreamResponse.http 200 (some (Json.obj [("data", Json.int 3)])) =
        UpstreamResponse.http 200 (some j) → ∃ f, j = Json.obj f) ∧
    ((∃ f, UpstreamResponse.http 200 (some (Json.obj [("data", Json.int 3)])) =
        UpstreamResponse.http 200 (some (Json.obj f)) ∧
        get_kit_info (UpstreamResponse.http 200 (some (Json.obj [("data", Json.int 3)]))) =
          Except.ok (pyDictGet f "data")) ∨
      get_kit_info (UpstreamResponse.http 200 (some (Json.obj [("data", Json.int 3)]))) =
        Except.ok Json.null) := by
  have hyp : ∀ j : Json,
      UpstreamResponse.http 200 (some (Json.obj [("data", Json.int 3)])) =
        UpstreamResponse.http 200 (some j) → ∃ f, j = Json.obj f := by
    intro j hj
    injection hj with h1 h2
    injection h2 with h3
    exact ⟨_, h3.symm⟩
  exact ⟨hyp, get_kit_info_amended _ hyp⟩

/-! ## Claim C7 -/

theorem pyDictGet_cons_neg (kv : String × Json) (t : List (String × Json)) (k : String)
    (h : (kv.1 == k) = false) : pyDictGet (kv :: t) k = pyDictGet t k := by
  simp [pyDictGet, pyDictFind, List.find?_cons, h]

theorem pyDictGet_cons_pos (kv : String × Json) (t : List (String × Json)) (k : String)
    (h : (kv.1 == k) = true) : pyDictGet (kv :: t) k = kv.2 := by
  simp [pyDictGet, pyDictFind, List.find?_cons, h]

theorem pyDictMem_cons_neg (kv : String × Json) (t : List (String × Json)) (k : String)
    (h : (kv.1 == k) = false) : pyDictMem (kv :: t) k = pyDictMem t k := by
  simp [pyDictMem, pyDictFind, List.find?_cons, h]

theorem pyDictMem_cons_pos (kv : String × Json) (t : List (String × Json)) (k : String)
    (h : (kv.1 == k) = true) : pyDictMem (kv :: t) k = true := by
  simp [pyDictMem, pyDictFind, List.find?_cons, h]

theorem utilsMerged_get (attrs : List (String × Json)) (k : String)
    (hk : (k == "attributes") = false) :
    ∀ fields, pyDictGet (utilsMerged attrs fields) k =
      if pyDictMem fields k then pyDictGet fields k else pyDictGet attrs k := by
  have hkne : ¬ k = "attributes" := by simpa using hk
  intro fields
  induction fields with
  | nil => simp [utilsMerged, pyDictMem, pyDictFind, pyDictGet]
  | cons kv t ih =>
    by_cases hkv : (kv.1 == "attributes") = true
    · have hkeq : kv.1 = "attributes" := by simpa using hkv
      have hne : (kv.1 == k) = false := by
        rw [hkeq]
        simp
        exact fun hc => hkne hc.symm
      have h1 : utilsMerged attrs (kv :: t) = utilsMerged attrs t := by
        simp [utilsMerged, List.filter_cons, hkv]
      rw [h1, ih, pyDictGet_cons_neg kv t k hne, pyDictMem_cons_neg kv t k hne]
    · have hkv2 : (kv.1 == "attributes") = false := by simpa using hkv
      have h1 : utilsMerged attrs (kv :: t) = kv :: utilsMerged attrs t := by
        simp [utilsMerged, List.filter_cons, hkv2]
      rw [h1]
      by_cases heq : (kv.1 == k) = true
      · rw [pyDictGet_cons_pos kv (utilsMerged attrs t) k heq,
          pyDictMem_cons_pos kv t k heq]
        simp [pyDictGet_cons_pos kv t k heq]
      · have heq2 : (kv.1 == k) = false := by simpa using heq
        rw [pyDictGet_cons_neg kv (utilsMerged attrs t) k heq2, ih,
          pyDictGet_cons_neg kv t k heq2, pyDictMem_cons_neg kv t k heq2]

/-- Counterexample to claim C7 as stated: attributes do not always take
precedence.  In `utils.py` the top-level field overwrites the attributes
field of the same name (`rec.update` runs last), and even in
`api_call.py` a falsy attributes value loses to a truthy top-level one
because the chain uses Python `or`. -/
theorem attributes_precedence_counterexample :
    utilsTs (utilsMerged [("timestamp", Json.str "A")] [("timestamp", Json.str "B")]) =
      Json.str "B" ∧
    apiTs [("timestamp", Json.str "")] [("timestamp", Json.str "B")] = Json.str "B" ∧
    Json.str "B" ≠ Json.str "A" ∧ Json.str "B" ≠ Json.str "" := by
  refine ⟨rfl, rfl, ?_, ?_⟩
  · intro h; injection h with h1; exact absurd h1 (by decide)
  · intro h; injection h with h1; exact absurd h1 (by decide)

/-- Claim C7 amended: in `api_call.py`'s normalizer a field present under
`attributes` takes precedence over the same logical top-level field
whenever the attributes value is truthy (a falsy one falls through); in
`utils.py`'s normalizer the precedence is reversed — for every key other
than `attributes`, a top-level field shadows the attributes field of the
same name in the merged record. -/
theorem attributes_precedence_amended (attrs fields : List (String × Json)) :
    ((pyDictGet attrs "timestamp").truthy = true →
      apiTs attrs fields = pyDictGet attrs "timestamp") ∧
    ((pyDictGet attrs "value").truthy = true →
      apiVal attrs fields = pyDictGet attrs "value") ∧
    ((pyDictGet attrs "unit").truthy = true →
      apiUnit attrs fields = pyDictGet attrs "unit") ∧
    (∀ k, (k == "attributes") = false →
      pyDictGet (utilsMerged attrs fields) k =
        if pyDictMem fields k then pyDictGet fields k else pyDictGet attrs k) := by
  refine ⟨?_, ?_, ?_, ?_⟩
  · intro h; simp [apiTs, pyOr, h]
  · intro h; simp [apiVal, pyOr, h]
  · intro h; simp [apiUnit, pyOr, h]
  · intro k hk; exact utilsMerged_get attrs k hk fields

theorem attributes_precedence_amended_witness :
    (pyDictGet [("timestamp", Json.str "A")] "timestamp").truthy = true ∧
    apiTs [("timestamp", Json.str "A")] [("timestamp", Json.str "B")] = Json.str "A" ∧
    ("timestamp" == "attributes") = false ∧
    pyDictGet (utilsMerged [("timestamp", Json.str "A")] [("timestamp", Json.str "B")])
        "timestamp" =
      if pyDictMem [("timestamp", Json.str "B")] "timestamp"
      then pyDictGet [("timestamp", Json.str "B")] "timestamp"
      else pyDictGet [("timestamp", Json.str "A")] "timestamp" := by
  have h := attributes_precedence_amended
    [("timestamp", Json.str "A")] [("timestamp", Json.str "B")]
  exact ⟨rfl, h.1 rfl, by decide, h.2.2.2 "timestamp" (by decide)⟩

/-! ## Claim C4 -/

theorem selectSensors_explicit (l : List String) (kitInfo : Json) (env : Option String)
    (hl : l.filter (fun s => !(s == "")) ≠ []) :
    selectSensors (some l) kitInfo env =
      Except.ok ((l.filter (fun s => !(s == ""))).map Json.str) := by
  cases hfe : l.filter (fun s => !(s == "")) with
  | nil => exact absurd hfe hl
  | cons a t =>
    simp only [selectSensors, Option.getD_some]
    rw [hfe]
    simp

theorem selectSensors_fallback (kitInfo : Json) (env : Option String)
    (kitFields : List (String × Json))
    (hobj : pyOr kitInfo (Json.obj []) = Json.obj kitFields)
    (hd : discoverSensors kitFields = Except.ok []) :
    selectSensors none kitInfo env =
      Except.ok (if (envSensorList env).isEmpty then defaultSensors
        else (envSensorList env).map Json.str) := by
  simp only [selectSensors, Option.getD_none, List.filter_nil, List.map_nil,
    List.isEmpty_nil, Bool.not_true, Bool.false_eq_true, if_false]
  rw [hobj]
  simp only [hd, Except.bind, bind, List.isEmpty_nil, Bool.not_true, Bool.false_eq_true,
    if_false]
  cases henv : envSensorList env with
  | nil => simp
  | cons a t => simp

theorem selectSensors_ne_nil (sensors : Option (List String)) (kitInfo : Json)
    (env : Option String) (res : List Json)
    (h : selectSensors sensors kitInfo env = Except.ok res) : res ≠ [] := by
  simp only [selectSensors] at h
  cases hex : ((sensors.getD []).filter (fun s => !(s == ""))).map Json.str with
  | cons a t =>
    rw [hex] at h
    simp at h
    simp [← h]
  | nil =>
    rw [hex] at h
    simp only [List.isEmpty_nil, Bool.not_true, Bool.false_eq_true, if_false] at h
    cases hki : pyOr kitInfo (Json.obj []) with
    | obj kitFields =>
      rw [hki] at h
      cases hd : discoverSensors kitFields with
      | error e => simp [hd, Except.bind, bind] at h
      | ok d =>
        simp only [hd, Except.bind, bind] at h
        cases d with
        | cons a t =>
          simp at h
          simp [← h]
        | nil =>
          simp only [List.isEmpty_nil, Bool.not_true, Bool.false_eq_true, if_false] at h
          cases henv : (envSensorList env).map Json.str with
          | cons a t =>
            rw [henv] at h
            simp at h
            simp [← h]
          | nil =>
            rw [henv] at h
            simp only [List.isEmpty_nil, Bool.not_true, Bool.false_eq_true, if_false] at h
            simp only [Except.ok.injEq] at h
            rw [← h]
            simp [defaultSensors]
    | null => rw [hki] at h; simp at h
    | bool b => rw [hki] at h; simp at h
    | int n => rw [hki] at h; simp at h
    | str s => rw [hki] at h; simp at h
    | arr elems => rw [hki] at h; simp at h

theorem allSensorsRows_net_congr (kit maxPages : Nat)
    (net net2 : Json → Nat → UpstreamResponse) :
    ∀ snames, (∀ s, s ∈ snames → net s = net2 s) →
      allSensorsRows kit net maxPages snames = allSensorsRows kit net2 maxPages snames := by
  intro snames
  induction snames with
  | nil => intro _; rfl
  | cons a t ih =>
    intro h
    simp only [allSensorsRows]
    rw [h a (List.mem_cons_self a t), ih (fun s hs => h s (List.mem_cons_of_mem a hs))]

/-- Counterexample to claim C4 as stated: the caller-supplied non-empty
list `[""]` trims to nothing, so the metadata lookup does occur (the
selected sensors depend on the kit metadata) and the supplied list is not
what is used. -/
theorem sensor_override_counterexample :
    ([""] : List String) ≠ [] ∧
    selectSensors (some [""])
        (Json.obj [("sensors", Json.arr [Json.obj [("name", Json.str "x")]])]) none =
      Except.ok [Json.str "x"] ∧
    selectSensors (some [""]) Json.null none = Except.ok defaultSensors ∧
    (Except.ok [Json.str "x"] : Except Unit (List Json)) ≠ Except.ok defaultSensors := by
  refine ⟨by simp, rfl, rfl, ?_⟩
  simp [defaultSensors]

/-- Claim C4 amended: an explicit sensor list with at least one non-empty
entry is used verbatim after trimming empty entries, independently of the
kit metadata and the environment (no metadata lookup can influence the
result), and only the named endpoints are queried; with no explicit list,
when discovery yields nothing the selection falls back to the environment
override list and then to the built-in five-sensor default, and every
successful selection is non-empty. -/
theorem sensor_override_amended (l : List String) (kitInfo kitInfo2 : Json)
    (env env2 : Option String) (hl : l.filter (fun s => !(s == "")) ≠ []) :
    selectSensors (some l) kitInfo env =
      Except.ok ((l.filter (fun s => !(s == ""))).map Json.str) ∧
    selectSensors (some l) kitInfo env = selectSensors (some l) kitInfo2 env2 ∧
    (∀ kitFields, pyOr kitInfo (Json.obj []) = Json.obj kitFields →
      discoverSensors kitFields = Except.ok [] →
      selectSensors none kitInfo env =
        Except.ok (if (envSensorList env).isEmpty then defaultSensors
          else (envSensorList env).map Json.str)) ∧
    (∀ sensors res, selectSensors sensors kitInfo env = Except.ok res → res ≠ []) ∧
    (∀ snames (net net2 : Json → Nat → UpstreamResponse) (kit maxPages : Nat),
      (∀ s, s ∈ snames → net s = net2 s) →
      allSensorsRows kit net maxPages snames = allSensorsRows kit net2 maxPages snames) := by
  refine ⟨selectSensors_explicit l kitInfo env hl, ?_, ?_, ?_, ?_⟩
  · rw [selectSensors_explicit l kitInfo env hl, selectSensors_explicit l kitInfo2 env2 hl]
  · intro kitFields hobj hd
    exact selectSensors_fallback kitInfo env kitFields hobj hd
  · intro sensors res h
    exact selectSensors_ne_nil sensors kitInfo env res h
  · intro snames net net2 kit maxPages h
    exact allSensorsRows_net_congr kit maxPages net net2 snames h

theorem sensor_override_amended_witness :
    (["ftTemp"].filter (fun s => !(s == "")) ≠ []) ∧
    selectSensors (some ["ftTemp"]) (Json.obj []) none = Except.ok [Json.str "ftTemp"] ∧
    selectSensors (some ["ftTemp"]) (Json.obj []) none =
      selectSensors (some ["ftTemp"]) Json.null (some "a,b") := by
  have h := sensor_override_amended ["ftTemp"] (Json.obj []) Json.null none (some "a,b")
    (by decide)
  exact ⟨by decide, h.1, h.2.1⟩

/-! ## Claim C6 -/

/-- Counterexample to claim C6 as stated: in `utils.py` an item with no
resolvable timestamp (and none of the value aliases but `value`) is NOT
discarded — it contributes a row whose timestamp is `None`. -/
theorem silent_discard_counterexample :
    utilsPageRows 1 (Json.str "s") [Json.obj [("value", Json.int 5)]] =
      Except.ok [⟨1, Json.str "s", Json.null, Json.int 5, Json.null,
        Json.obj [("value", Json.int 5)]⟩] ∧
    (⟨1, Json.str "s", Json.null, Json.int 5, Json.null,
        Json.obj [("value", Json.int 5)]⟩ : UtilsRawRow).timestamp = Json.null := by
  exact ⟨rfl, rfl⟩

/-- Claim C6 amended: in `api_call.py`, a dict item whose `attributes`
entry is absent, falsy, or an object, and whose resolved timestamp or
value is `None`, is discarded silently — it contributes no row and does
not disturb the processing of the remaining items of the batch (an item
whose `attributes` is a truthy non-object instead aborts the batch with
an `AttributeError`); `utils.py` retains such items as rows with `None`
fields. -/
theorem silent_discard_amended (kit : Nat) (sname : Json)
    (fields attrs : List (String × Json))
    (hattrs : pyOr (pyDictGet fields "attributes") (Json.obj []) = Json.obj attrs)
    (hnull : (apiTs attrs fields).isNull = true ∨ (apiVal attrs fields).isNull = true) :
    itemRow kit sname (Json.obj fields) = Except.ok none ∧
    ∀ items, pageRows kit sname (Json.obj fields :: items) = pageRows kit sname items := by
  have hitem : itemRow kit sname (Json.obj fields) = Except.ok none := by
    simp only [itemRow, hattrs]
    rcases hnull with h | h
    · simp [h]
    · simp [h]
  refine ⟨hitem, ?_⟩
  intro items
  simp only [pageRows, hitem, Except.bind, bind]
  cases hp : pageRows kit sname items with
  | error e => rfl
  | ok more => rfl

theorem silent_discard_amended_witness :
    pyOr (pyDictGet [] "attributes") (Json.obj []) = Json.obj [] ∧
    (apiTs [] []).isNull = true ∧
    itemRow 1 (Json.str "s") (Json.obj []) = Except.ok none ∧
    pageRows 1 (Json.str "s")
        [Json.obj [], Json.obj [("timestamp", Json.int 2), ("value", Json.int 7)]] =
      pageRows 1 (Json.str "s")
        [Json.obj [("timestamp", Json.int 2), ("value", Json.int 7)]] := by
  have h := silent_discard_amended 1 (Json.str "s") [] [] rfl (Or.inl rfl)
  exact ⟨rfl, rfl, h.1, h.2 [Json.obj [("timestamp", Json.int 2), ("value", Json.int 7)]]⟩

/-! ## Row-provenance lemmas for the live path -/

theorem itemRow_shape (kit : Nat) (sname item : Json) (r : RawRow)
    (h : itemRow kit sname item = Except.ok (some r)) :
    r.kit_id = kit ∧ r.sensor = sname := by
  cases item with
  | obj fields =>
    cases ha : pyOr (pyDictGet fields "attributes") (Json.obj []) with
    | obj attrs =>
      simp only [itemRow, ha] at h
      split at h
      · simp at h
      · simp only [Except.ok.injEq, Option.some.injEq] at h
        rw [← h]
        exact ⟨rfl, rfl⟩
    | null => simp [itemRow, ha] at h
    | bool b => simp [itemRow, ha] at h
    | int n => simp [itemRow, ha] at h
    | str s => simp [itemRow, ha] at h
    | arr elems => simp [itemRow, ha] at h
  | null => exact absurd h (by simp [itemRow])
  | bool b => exact absurd h (by simp [itemRow])
  | int n => exact absurd h (by simp [itemRow])
  | str s => exact absurd h (by simp [itemRow])
  | arr elems => exact absurd h (by simp [itemRow])

theorem mem_pageRows (kit : Nat) (sname : Json) :
    ∀ items rs, pageRows kit sname items = Except.ok rs →
      ∀ r, r ∈ rs → r.kit_id = kit ∧ r.sensor = sname := by
  intro items
  induction items with
  | nil =>
    intro rs h r hr
    simp only [pageRows, Except.ok.injEq] at h
    rw [← h] at hr
    simp at hr
  | cons item t ih =>
    intro rs h r hr
    simp only [pageRows] at h
    cases hi : itemRow kit sname item with
    | error e => simp [hi, Except.bind, bind] at h
    | ok o =>
      cases hp : pageRows kit sname t with
      | error e => simp [hi, hp, Except.bind, bind] at h
      | ok more =>
        simp only [hi, hp, Except.bind, bind] at h
        cases o with
        | none =>
          simp only [Except.ok.injEq] at h
          rw [← h] at hr
          exact ih more hp r hr
        | some row =>
          simp only [Except.ok.injEq] at h
          rw [← h] at hr
          rcases List.mem_cons.mp hr with hr1 | hr2
          · rw [hr1]
            exact itemRow_shape kit sname item row hi
          · exact ih more hp r hr2

theorem mem_pagesRows (kit : Nat) (sname : Json) :
    ∀ pages rs, pagesRows kit sname pages = Except.ok rs →
      ∀ r, r ∈ rs → r.kit_id = kit ∧ r.sensor = sname := by
  intro pages
  induction pages with
  | nil =>
    intro rs h r hr
    simp only [pagesRows, Except.ok.injEq] at h
    rw [← h] at hr
    simp at hr
  | cons p ps ih =>
    intro rs h r hr
    simp only [pagesRows] at h
    cases hp : pageRows kit sname p with
    | error e => simp [hp, Except.bind, bind] at h
    | ok first =>
      cases hq : pagesRows kit sname ps with
      | error e => simp [hp, hq, Except.bind, bind] at h
      | ok more =>
        simp only [hp, hq, Except.bind, bind, Except.ok.injEq] at h
        rw [← h] at hr
        rcases List.mem_append.mp hr with hr1 | hr2
        · exact mem_pageRows kit sname p first hp r hr1
        · exact ih more hq r hr2

theorem mem_sensorRows (kit : Nat) (sname : Json) (pr : List (List Json) × Bool)
    (rs : List RawRow) (h : sensorRows kit sname pr = Except.ok rs) :
    ∀ r, r ∈ rs → r.kit_id = kit ∧ r.sensor = sname := by
  intro r hr
  simp only [sensorRows] at h
  cases hp : pagesRows kit sname pr.1 with
  | error e => simp [hp, Except.bind, bind] at h
  | ok first =>
    simp only [hp, Except.bind, bind] at h
    cases hb : pr.2 with
    | true => rw [hb] at h; simp at h
    | false =>
      rw [hb] at h
      simp only [Bool.false_eq_true, if_false, Except.ok.injEq] at h
      rw [← h] at hr
      exact mem_pagesRows kit sname pr.1 first hp r hr

theorem mem_allSensorsRows (kit : Nat) (net : Json → Nat → UpstreamResponse)
    (maxPages : Nat) :
    ∀ snames raw, allSensorsRows kit net maxPages snames = Except.ok raw →
      ∀ r, r ∈ raw → r.kit_id = kit ∧ r.sensor ∈ snames := by
  intro snames
  induction snames with
  | nil =>
    intro raw h r hr
    simp only [allSensorsRows, Except.ok.injEq] at h
    rw [← h] at hr
    simp at hr
  | cons s rest ih =>
    intro raw h r hr
    simp only [allSensorsRows] at h
    cases hs : sensorRows kit s (paginate (net s) maxPages) with
    | error e => simp [hs, Except.bind, bind] at h
    | ok first =>
      cases hm : allSensorsRows kit net maxPages rest with
      | error e => simp [hs, hm, Except.bind, bind] at h
      | ok more =>
        simp only [hs, hm, Except.bind, bind, Except.ok.injEq] at h
        rw [← h] at hr
        rcases List.mem_append.mp hr with hr1 | hr2
        · obtain ⟨h1, h2⟩ := mem_sensorRows kit s (paginate (net s) maxPages) first hs r hr1
          exact ⟨h1, by rw [h2]; exact List.mem_cons_self s rest⟩
        · obtain ⟨h1, h2⟩ := ih more hm r hr2
          exact ⟨h1, List.mem_cons_of_mem s h2⟩

/-! ## Non-empty sensor names -/

theorem selectSensors_truthy (sensors : Option (List String)) (kitInfo : Json)
    (env : Option String) (snames : List Json)
    (h : selectSensors sensors kitInfo env = Except.ok snames) :
    ∀ s ∈ snames, s.truthy = true := by
  intro s hs
  simp only [selectSensors] at h
  cases hex : ((sensors.getD []).filter (fun x => !(x == ""))).map Json.str with
  | cons a t =>
    rw [hex] at h
    simp only [List.isEmpty_cons, Bool.not_false, if_true, Except.ok.injEq] at h
    rw [← h, ← hex] at hs
    obtain ⟨x, hx, hxs⟩ := List.mem_map.mp hs
    obtain ⟨_, hxf⟩ := List.mem_filter.mp hx
    rw [← hxs]
    simpa [Json.truthy] using hxf
  | nil =>
    rw [hex] at h
    simp only [List.isEmpty_nil, Bool.not_true, Bool.false_eq_true, if_false] at h
    cases hki : pyOr kitInfo (Json.obj []) with
    | obj kitFields =>
      rw [hki] at h
      cases hd : discoverSensors kitFields with
      | error e => simp [hd, Except.bind, bind] at h
      | ok d =>
        simp only [hd, Except.bind, bind] at h
        cases d with
        | cons a t =>
          simp only [List.isEmpty_cons, Bool.not_false, if_true, Except.ok.injEq] at h
          rw [← h] at hs
          simp only [discoverSensors, Except.map] at hd
          cases hit : iterElems (pyOr (pyDictGet kitFields "sensors") (Json.arr [])) with
          | error e => rw [hit] at hd; simp at hd
          | ok elems =>
            rw [hit] at hd
            simp only [Except.ok.injEq] at hd
            rw [← hd] at hs
            obtain ⟨x, hx1, hx2⟩ := List.mem_filterMap.mp hs
            cases x with
            | obj sf =>
              simp only at hx2
              split at hx2
              · simp only [Option.some.injEq] at hx2
                rw [← hx2]
                assumption
              · simp at hx2
            | null => simp at hx2
            | bool b => simp at hx2
            | int n => simp at hx2
            | str s2 => simp at hx2
            | arr elems2 => simp at hx2
        | nil =>
          simp only [List.isEmpty_nil, Bool.not_true, Bool.false_eq_true, if_false] at h
          cases henv : (envSensorList env).map Json.str with
          | cons a t =>
            rw [henv] at h
            simp only [List.isEmpty_cons, Bool.not_false, if_true, Except.ok.injEq] at h
            rw [← h, ← henv] at hs
            obtain ⟨x, hx, hxs⟩ := List.mem_map.mp hs
            simp only [envSensorList] at hx
            rw [← hxs]
            split at hx
            · simp at hx
            · obtain ⟨_, hxf⟩ := List.mem_filter.mp hx
              simpa [Json.truthy] using hxf
          | nil =>
            rw [henv] at h
            simp only [List.isEmpty_nil, Bool.not_true, Bool.false_eq_true, if_false,
              Except.ok.injEq] at h
            rw [← h] at hs
            simp only [defaultSensors, List.mem_cons, List.not_mem_nil, or_false] at hs
            rcases hs with h1 | h1 | h1 | h1 | h1 <;> rw [h1] <;> rfl
    | null => rw [hki] at h; simp at h
    | bool b => rw [hki] at h; simp at h
    | int n => rw [hki] at h; simp at h
    | str s2 => rw [hki] at h; simp at h
    | arr elems => rw [hki] at h; simp at h

theorem toDigitsCore_cons_ne (b : Nat) :
    ∀ fuel n c ds, Nat.toDigitsCore b fuel n (c :: ds) ≠ [] := by
  intro fuel
  induction fuel with
  | zero => intro n c ds; simp [Nat.toDigitsCore]
  | succ fuel ih =>
    intro n c ds
    unfold Nat.toDigitsCore
    dsimp only
    split
    · simp
    · exact ih _ _ _

theorem toDigits_ne_nil (b n : Nat) : Nat.toDigits b n ≠ [] := by
  unfold Nat.toDigits
  unfold Nat.toDigitsCore
  dsimp only
  split
  · simp
  · exact toDigitsCore_cons_ne b _ _ _ _

theorem natRepr_ne_empty (n : Nat) : Nat.repr n ≠ "" := by
  intro hc
  apply toDigits_ne_nil 10 n
  have h := congrArg String.data hc
  simpa [Nat.repr, List.asString] using h

theorem intRepr_ne_empty (n : Int) : Int.repr n ≠ "" := by
  unfold Int.repr
  split
  · exact natRepr_ne_empty _
  · intro hc
    have h := congrArg String.length hc
    rw [String.length_append] at h
    have h1 : ("-" : String).length = 1 := rfl
    have h2 : ("" : String).length = 0 := rfl
    rw [h1, h2] at h
    omega

theorem str_ne_empty_of_length_pos (s : String) (h : 0 < s.length) : s ≠ "" := by
  intro hc
  rw [hc] at h
  exact absurd h (by decide)

theorem pyStr_ne_empty (j : Json) (h : j.truthy = true) : pyStr j ≠ "" := by
  cases j with
  | null => simp [Json.truthy] at h
  | bool b =>
    cases b with
    | false => simp [Json.truthy] at h
    | true =>
      intro hc
      have he : pyStr (Json.bool true) = "True" := by simp [pyStr, pyRepr]
      rw [he] at hc
      exact absurd hc (by decide)
  | int n =>
    intro hc
    have he : pyStr (Json.int n) = Int.repr n := by simp [pyStr, pyRepr]
    rw [he] at hc
    exact intRepr_ne_empty n hc
  | str s =>
    have he : pyStr (Json.str s) = s := by simp [pyStr]
    rw [he]
    simpa [Json.truthy] using h
  | arr elems =>
    apply str_ne_empty_of_length_pos
    have he : pyStr (Json.arr elems) =
        "[" ++ String.intercalate ", " (elems.attach.map (fun e => pyRepr e.1)) ++ "]" := by
      simp [pyStr, pyRepr]
    rw [he, String.length_append, String.length_append]
    have h1 : ("[" : String).length = 1 := rfl
    rw [h1]
    omega
  | obj fields =>
    apply str_ne_empty_of_length_pos
    have he : pyStr (Json.obj fields) =
        "\x7b" ++ String.intercalate ", "
          (fields.attach.map (fun kv => "\x27" ++ kv.1.1 ++ "\x27: " ++ pyRepr kv.1.2)) ++
        "\x7d" := by
      simp [pyStr, pyRepr]
    rw [he, String.length_append, String.length_append]
    have h1 : ("\x7b" : String).length = 1 := rfl
    rw [h1]
    omega

/-! ## Membership through the post-processing stages -/

theorem mem_normalizeLive (raw : List RawRow) (r : OutRow) :
    r ∈ normalizeLive raw ↔
      (∃ r0 ∈ raw, r = coerceRow r0) ∧ r.timestamp.isSome = true := by
  simp only [normalizeLive, mem_stableSortBy, List.mem_filter, List.mem_map]
  constructor
  · rintro ⟨⟨r0, h0, hr⟩, hts⟩
    exact ⟨⟨r0, h0, hr.symm⟩, hts⟩
  · rintro ⟨⟨r0, h0, hr⟩, hts⟩
    exact ⟨⟨r0, h0, hr.symm⟩, hts⟩

theorem mem_normalizeCache_ts (rows : List CacheRow) (r : OutRow)
    (hr : r ∈ normalizeCache rows) : r.timestamp.isSome = true := by
  simp only [normalizeCache, mem_stableSortBy, List.mem_filter] at hr
  exact hr.2

theorem mem_load_cached_ts (kit : Nat) (dir : Option (List CacheFile)) (r : OutRow)
    (hr : r ∈ load_cached_kit_dataframe kit dir) : r.timestamp.isSome = true := by
  cases dir with
  | none => simp [load_cached_kit_dataframe] at hr
  | some files =>
    simp only [load_cached_kit_dataframe] at hr
    split at hr
    · simp at hr
    · split at hr
      · simp at hr
      · exact mem_normalizeCache_ts _ r hr

theorem liveNormalized_mem (kit : Nat) (sensors : Option (List String)) (kitInfo : Json)
    (env : Option String) (net : Json → Nat → UpstreamResponse) (maxPages : Nat)
    (out : List OutRow)
    (h : liveNormalized kit sensors kitInfo env net maxPages = Except.ok out) :
    ∀ r ∈ out, ∃ snames raw r0,
      selectSensors sensors kitInfo env = Except.ok snames ∧
      allSensorsRows kit net maxPages snames = Except.ok raw ∧
      r0 ∈ raw ∧ r = coerceRow r0 ∧ r.timestamp.isSome = true := by
  intro r hr
  simp only [liveNormalized] at h
  cases hs : selectSensors sensors kitInfo env with
  | error e => simp [hs, Except.bind, bind] at h
  | ok snames =>
    cases ha : allSensorsRows kit net maxPages snames with
    | error e => simp [hs, ha, Except.bind, bind] at h
    | ok raw =>
      simp only [hs, ha, Except.bind, bind, Except.ok.injEq] at h
      rw [← h] at hr
      split at hr
      · simp at hr
      · obtain ⟨⟨r0, h0, hcr⟩, hts⟩ := (mem_normalizeLive raw r).mp hr
        exact ⟨snames, raw, r0, rfl, ha, h0, hcr, hts⟩

/-! ## Claim C8 -/

/-- Counterexample to claim C8 as stated: a cache-fallback row carries
whatever the cached file holds — here the file lacks a `kit_id` column,
so the final output's `kit_id` is `None` rather than the requested 7. -/
theorem row_invariant_counterexample :
    get_kit_measurements_df 7 (some ["a"]) Json.null none netDown 500
        (some [cacheFileNoKitId]) =
      Except.ok [⟨Json.null, "s", some 3, none, Json.null⟩] ∧
    (⟨Json.null, "s", some 3, none, Json.null⟩ : OutRow).kit_id ≠ Json.int 7 := by
  refine ⟨rfl, ?_⟩
  intro hc
  exact Json.noConfusion hc

/-- Claim C8 amended: every row of the live-path output has a non-empty
`sensor` string and `kit_id` equal to the requested kit, and a non-empty
live result is returned as the pipeline's final output unchanged for any
cache state; rows produced by the cache fallback instead carry whatever
the cached file holds, unvalidated. -/
theorem row_invariant_amended (kit : Nat) (sensors : Option (List String)) (kitInfo : Json)
    (env : Option String) (net : Json → Nat → UpstreamResponse) (maxPages : Nat)
    (out : List OutRow)
    (h : liveNormalized kit sensors kitInfo env net maxPages = Except.ok out) :
    (∀ r ∈ out, r.kit_id = Json.int kit ∧ r.sensor ≠ "") ∧
    (out ≠ [] → ∀ dir, get_kit_measurements_df kit sensors kitInfo env net maxPages dir =
      Except.ok out) := by
  constructor
  · intro r hr
    obtain ⟨snames, raw, r0, hs, ha, h0, hcr, _⟩ := liveNormalized_mem kit sensors kitInfo
      env net maxPages out h r hr
    obtain ⟨hk, hmem⟩ := mem_allSensorsRows kit net maxPages snames raw ha r0 h0
    constructor
    · rw [hcr]
      simp only [coerceRow, hk]
    · rw [hcr]
      simp only [coerceRow]
      exact pyStr_ne_empty r0.sensor (selectSensors_truthy sensors kitInfo env snames hs
        r0.sensor hmem)
  · intro hne dir
    have hie : out.isEmpty = false := by
      cases out with
      | nil => exact absurd rfl hne
      | cons a t => rfl
    simp [get_kit_measurements_df, h, Except.bind, bind, hie]

theorem row_invariant_amended_witness :
    liveNormalized 3 (some ["a"]) Json.null none netGood 500 =
      Except.ok [⟨Json.int 3, "a", some 1, some 2, Json.null⟩] ∧
    ((⟨Json.int 3, "a", some 1, some 2, Json.null⟩ : OutRow).kit_id = Json.int 3 ∧
      (⟨Json.int 3, "a", some 1, some 2, Json.null⟩ : OutRow).sensor ≠ "") := by
  have h := row_invariant_amended 3 (some ["a"]) Json.null none netGood 500
    [⟨Json.int 3, "a", some 1, some 2, Json.null⟩] rfl
  exact ⟨rfl, h.1 _ (List.mem_singleton.mpr rfl)⟩

/-! ## Claim C2 -/

/-- Counterexample to claim C2 as stated: `utils.py`'s pipeline retains a
row whose timestamp failed to resolve, so its output carries a null
(`NaT`) timestamp. -/
theorem timestamp_nonnull_counterexample :
    utilsGetKitMeasurementsDf 1 (some ["s"]) Json.null netNoTimestamp =
      Except.ok [⟨1, Json.str "s", none, Json.int 5, Json.null,
        Json.obj [("value", Json.int 5)]⟩] ∧
    (⟨1, Json.str "s", none, Json.int 5, Json.null,
        Json.obj [("value", Json.int 5)]⟩ : UtilsOutRow).timestamp = none := by
  exact ⟨rfl, rfl⟩

/-- Claim C2 amended: in `api_call.py`'s pipeline the output (live or
cache-sourced) never contains a null timestamp — rows whose timestamp
fails to parse are dropped — and a raw row with a parseable timestamp is
retained through normalization with its value coerced (null when the
value fails numeric coercion); `utils.py`'s pipeline instead retains rows
with null timestamps and leaves values uncoerced. -/
theorem timestamp_nonnull_amended (kit : Nat) (sensors : Option (List String))
    (kitInfo : Json) (env : Option String) (net : Json → Nat → UpstreamResponse)
    (maxPages : Nat) (dir : Option (List CacheFile)) (out : List OutRow)
    (h : get_kit_measurements_df kit sensors kitInfo env net maxPages dir = Except.ok out) :
    (∀ r ∈ out, r.timestamp.isSome = true) ∧
    (∀ (raw : List RawRow) (r0 : RawRow), r0 ∈ raw →
      (parseTimestamp r0.timestamp).isSome = true →
      coerceRow r0 ∈ normalizeLive raw ∧ (coerceRow r0).value = parseNumeric r0.value) := by
  constructor
  · intro r hr
    simp only [get_kit_measurements_df] at h
    cases hl : liveNormalized kit sensors kitInfo env net maxPages with
    | error e => simp [hl, Except.bind, bind] at h
    | ok dfn =>
      simp only [hl, Except.bind, bind] at h
      by_cases hie : dfn.isEmpty = true
      · rw [if_pos hie] at h
        by_cases hce : (load_cached_kit_dataframe kit dir).isEmpty = true
        · rw [if_pos hce] at h
          simp only [Except.ok.injEq] at h
          rw [← h] at hr
          cases dfn with
          | nil => simp at hr
          | cons a t => simp at hie
        · rw [if_neg hce] at h
          simp only [Except.ok.injEq] at h
          rw [← h] at hr
          exact mem_load_cached_ts kit dir r hr
      · rw [if_neg hie] at h
        simp only [Except.ok.injEq] at h
        rw [← h] at hr
        obtain ⟨_, _, _, _, _, _, _, hts⟩ :=
          liveNormalized_mem kit sensors kitInfo env net maxPages dfn hl r hr
        exact hts
  · intro raw r0 h0 hts
    constructor
    · apply (mem_normalizeLive raw (coerceRow r0)).mpr
      exact ⟨⟨r0, h0, rfl⟩, by simpa [coerceRow] using hts⟩
    · rfl

theorem timestamp_nonnull_amended_witness :
    get_kit_measurements_df 3 (some ["a"]) Json.null none netGood 500 none =
      Except.ok [⟨Json.int 3, "a", some 1, some 2, Json.null⟩] ∧
    (⟨Json.int 3, "a", some 1, some 2, Json.null⟩ : OutRow).timestamp.isSome = true ∧
    (parseTimestamp (Json.str "10")).isSome = true ∧
    coerceRow ⟨3, Json.str "a", Json.str "10", Json.str "x", Json.null⟩ ∈
      normalizeLive [⟨3, Json.str "a", Json.str "10", Json.str "x", Json.null⟩] ∧
    (coerceRow ⟨3, Json.str "a", Json.str "10", Json.str "x", Json.null⟩).value =
      parseNumeric (Json.str "x") := by
  have h := timestamp_nonnull_amended 3 (some ["a"]) Json.null none netGood 500 none
    [⟨Json.int 3, "a", some 1, some 2, Json.null⟩] rfl
  have h2 := h.2 [⟨3, Json.str "a", Json.str "10", Json.str "x", Json.null⟩]
    ⟨3, Json.str "a", Json.str "10", Json.str "x", Json.null⟩
    (List.mem_singleton.mpr rfl) rfl
  exact ⟨rfl, h.1 _ (List.mem_singleton.mpr rfl), rfl, h2.1, h2.2⟩

/-! ## Claim C3 -/

theorem pickLatest_spec : ∀ (rest : List CacheFile) (f : CacheFile),
    pickLatest f rest ∈ f :: rest ∧
    ∀ g ∈ f :: rest, g.mtime ≤ (pickLatest f rest).mtime := by
  intro rest
  induction rest with
  | nil =>
    intro f
    refine ⟨List.mem_singleton.mpr rfl, ?_⟩
    intro g hg
    rw [List.mem_singleton.mp hg]
    exact Nat.le_refl _
  | cons c t ih =>
    intro f
    by_cases hlt : f.mtime < c.mtime
    · have hstep : pickLatest f (c :: t) = pickLatest c t := by
        show pickLatest (if f.mtime < c.mtime then c else f) t = pickLatest c t
        rw [if_pos hlt]
      obtain ⟨ihmem, ihbound⟩ := ih c
      rw [hstep]
      constructor
      · exact List.mem_cons_of_mem f ihmem
      · intro g hg
        have hc := ihbound c (List.mem_cons_self c t)
        rcases List.mem_cons.mp hg with h1 | h1
        · rw [h1]; omega
        · exact ihbound g h1
    · have hstep : pickLatest f (c :: t) = pickLatest f t := by
        show pickLatest (if f.mtime < c.mtime then c else f) t = pickLatest f t
        rw [if_neg hlt]
      obtain ⟨ihmem, ihbound⟩ := ih f
      rw [hstep]
      constructor
      · rcases List.mem_cons.mp ihmem with h1 | h1
        · rw [h1]; exact List.mem_cons_self f (c :: t)
        · exact List.mem_cons_of_mem f (List.mem_cons_of_mem c h1)
      · intro g hg
        have hf := ihbound f (List.mem_cons_self f t)
        rcases List.mem_cons.mp hg with h1 | h1
        · rw [h1]; exact hf
        · rcases List.mem_cons.mp h1 with h2 | h2
          · rw [h2]; omega
          · exact ihbound g (List.mem_cons_of_mem f h2)

/-- Claim C3: the cache fallback is consulted only when the
fully-assembled live collection is empty (a non-empty live result is
returned unchanged, for every cache state), is never merged with live
rows; when the live result is empty the pipeline returns exactly the
loaded cache collection, which equals the normalized contents of the
most-recently-modified matching file when one exists and is readable, and
is the empty five-column collection — not an error — when no file
matches; and the selected file is a matching file of maximal modification
time. -/
theorem cache_fallback_spec (kit : Nat) (sensors : Option (List String)) (kitInfo : Json)
    (env : Option String) (net : Json → Nat → UpstreamResponse) (maxPages : Nat)
    (dir : Option (List CacheFile)) :
    (∀ out, liveNormalized kit sensors kitInfo env net maxPages = Except.ok out →
      out ≠ [] → ∀ dir2,
      get_kit_measurements_df kit sensors kitInfo env net maxPages dir = Except.ok out ∧
      get_kit_measurements_df kit sensors kitInfo env net maxPages dir =
        get_kit_measurements_df kit sensors kitInfo env net maxPages dir2) ∧
    (liveNormalized kit sensors kitInfo env net maxPages = Except.ok [] →
      get_kit_measurements_df kit sensors kitInfo env net maxPages dir =
        Except.ok (load_cached_kit_dataframe kit dir)) ∧
    (∀ files f rest rows, dir = some files →
      files.filter (fun fl => fl.kitTag == kit) = f :: rest →
      (pickLatest f rest).content = some rows →
      load_cached_kit_dataframe kit dir = normalizeCache rows) ∧
    (∀ files, dir = some files → files.filter (fun fl => fl.kitTag == kit) = [] →
      load_cached_kit_dataframe kit dir = []) ∧
    (dir = none → load_cached_kit_dataframe kit dir = []) ∧
    (∀ (f : CacheFile) (rest : List CacheFile), pickLatest f rest ∈ f :: rest ∧
      ∀ g ∈ f :: rest, g.mtime ≤ (pickLatest f rest).mtime) := by
  refine ⟨?_, ?_, ?_, ?_, ?_, fun f rest => pickLatest_spec rest f⟩
  · intro out h hne dir2
    have hie : out.isEmpty = false := by
      cases out with
      | nil => exact absurd rfl hne
      | cons a t => rfl
    constructor
    · simp [get_kit_measurements_df, h, Except.bind, bind, hie]
    · simp [get_kit_measurements_df, h, Except.bind, bind, hie]
  · intro h
    simp only [get_kit_measurements_df, h, Except.bind, bind, List.isEmpty_nil, if_true]
    cases hce : load_cached_kit_dataframe kit dir with
    | nil => simp
    | cons a t => simp
  · intro files f rest rows hdir hfilter hcontent
    rw [hdir]
    simp only [load_cached_kit_dataframe, hfilter, hcontent]
  · intro files hdir hfilter
    rw [hdir]
    simp only [load_cached_kit_dataframe, hfilter]
  · intro hdir
    rw [hdir]
    rfl

theorem cache_fallback_spec_witness :
    liveNormalized 7 (some ["a"]) Json.null none netDown 500 = Except.ok [] ∧
    get_kit_measurements_df 7 (some ["a"]) Json.null none netDown 500
        (some [cacheFileGood]) =
      Except.ok (load_cached_kit_dataframe 7 (some [cacheFileGood])) ∧
    ([cacheFileGood].filter (fun fl => fl.kitTag == 7)) = [cacheFileGood] ∧
    (pickLatest cacheFileGood []).content =
      some [⟨Json.int 7, Json.str "s", Json.int 3, Json.str "x", Json.null⟩] ∧
    load_cached_kit_dataframe 7 (some [cacheFileGood]) =
      normalizeCache [⟨Json.int 7, Json.str "s", Json.int 3, Json.str "x", Json.null⟩] := by
  have h := cache_fallback_spec 7 (some ["a"]) Json.null none netDown 500
    (some [cacheFileGood])
  exact ⟨rfl, h.2.1 rfl, rfl, rfl,
    h.2.2.1 [cacheFileGood] cacheFileGood []
      [⟨Json.int 7, Json.str "s", Json.int 3, Json.str "x", Json.null⟩] rfl rfl rfl⟩
